import Mathlib

/-!
Verification development for the Tenant Configuration Overlay of a Slack
bot that stores per-workspace OpenAI credentials in a Google Cloud Storage
bucket (source file: main_prod.py).

The embedding models:
- the JSON payload format written by the commit phase
  (json.dumps of the two-field object with api_key and model) and the
  JSON decoding performed by the context-enrichment middleware
  (json.loads restricted to the object shapes this application stores:
  flat objects whose values are strings or decimal numbers);
- the context-enrichment middleware set_gcs_openai_api_key;
- the two-phase configure-modal flow (validate_api_key_registration as
  the synchronous ack phase, save_api_key_registration as the lazy
  commit phase);
- the revocation handlers handle_tokens_revoked_events and
  handle_app_uninstalled_events.

External collaborators are modelled by their contracts: the OpenAI
models.retrieve probe and the GCS upload are Boolean oracles; the GCS
blob download returns none when the blob is absent or unreadable; the
GCS blob delete raises (NotFound) when the blob is absent; the slack_sdk
FileInstallationStore delete operations remove matching records and are
no-ops when the records are already gone.

Strings are modelled as lists of unicode scalar values (List Char),
matching Python str for the payloads this program handles.
-/

/-- Strings are lists of unicode scalar values. -/
abbrev Str := List Char

/-- JSON values stored by this application: strings and numbers. -/
inductive JVal where
  | jstr (s : Str)
  | jnum (q : ℚ)
deriving DecidableEq, Repr

/-- A decoded JSON object: key/value bindings in textual order. -/
abbrev JObj := List (Str × JVal)

/-- Python dict lookup after json.loads: a later duplicate key wins. -/
def jget (o : JObj) (k : Str) : Option JVal :=
  match o with
  | [] => none
  | (k2, v) :: rest =>
    match jget rest k with
    | some v2 => some v2
    | none => if k2 = k then some v else none

/-- Lowercase hexadecimal digit, as emitted by json.dumps. -/
def hexDig (n : Nat) : Char :=
  if n < 10 then Char.ofNat (48 + n) else Char.ofNat (87 + n)

/-- Four-digit unicode escape, as emitted by json.dumps. -/
def uEsc (n : Nat) : Str :=
  ['\\', 'u', hexDig (n / 4096 % 16), hexDig (n / 256 % 16),
   hexDig (n / 16 % 16), hexDig (n % 16)]

/-- Escape of one character, following json.dumps with ensure_ascii:
short escapes for quote, backslash and the five named control
characters, unicode escapes for other control and non-ASCII characters,
surrogate pairs for supplementary-plane characters. -/
def escChar (c : Char) : Str :=
  if c = '"' then ['\\', '"']
  else if c = '\\' then ['\\', '\\']
  else if c = '\x08' then ['\\', 'b']
  else if c = '\x0c' then ['\\', 'f']
  else if c = '\n' then ['\\', 'n']
  else if c = '\r' then ['\\', 'r']
  else if c = '\t' then ['\\', 't']
  else if c.toNat < 32 then uEsc c.toNat
  else if c.toNat < 127 then [c]
  else if c.toNat < 65536 then uEsc c.toNat
  else uEsc (55296 + (c.toNat - 65536) / 1024) ++ uEsc (56320 + (c.toNat - 65536) % 1024)

/-- Escape of a whole string. -/
def escStr : Str → Str
  | [] => []
  | c :: cs => escChar c ++ escStr cs

/-- A JSON string literal: quote, escaped body, quote. -/
def strLit (s : Str) : Str := '"' :: escStr s ++ ['"']

/-- Key under which the secret is stored in the structured payload. -/
def api_key_field : Str := "api_key".data

/-- Key under which the chat model is stored in the structured payload. -/
def model_field : Str := "model".data

/-- Key of the optional image-generation model in the structured payload. -/
def image_generation_model_field : Str := "image_generation_model".data

/-- Key of the optional sampling temperature in the structured payload. -/
def temperature_field : Str := "temperature".data

/-- Payload written by the commit phase:
json.dumps of the dict with keys api_key and model, with the default
separators (comma-space and colon-space). -/
def save_payload (api_key model : Str) : Str :=
  '{' :: (strLit api_key_field ++ ':' :: ' ' :: strLit api_key
    ++ ',' :: ' ' :: strLit model_field ++ ':' :: ' ' :: strLit model ++ ['}'])

/-- Value of a hexadecimal digit character. -/
def parseHexDig (c : Char) : Option Nat :=
  if '0' ≤ c ∧ c ≤ '9' then some (c.toNat - 48)
  else if 'a' ≤ c ∧ c ≤ 'f' then some (c.toNat - 87)
  else if 'A' ≤ c ∧ c ≤ 'F' then some (c.toNat - 55)
  else none

/-- Value of a four-digit hexadecimal escape. -/
def hex4 (d1 d2 d3 d4 : Char) : Option Nat := do
  let a ← parseHexDig d1
  let b ← parseHexDig d2
  let c ← parseHexDig d3
  let d ← parseHexDig d4
  pure (((a * 16 + b) * 16 + c) * 16 + d)

/-- Decoding of a short escape sequence. -/
def unescChar (c : Char) : Option Char :=
  if c = '"' then some '"'
  else if c = '\\' then some '\\'
  else if c = '/' then some '/'
  else if c = 'b' then some '\x08'
  else if c = 'f' then some '\x0c'
  else if c = 'n' then some '\n'
  else if c = 'r' then some '\r'
  else if c = 't' then some '\t'
  else none

/-- Parse the body of a JSON string literal after the opening quote,
returning the decoded string and the input after the closing quote.
Surrogate pairs in unicode escapes are recombined; raw control
characters are rejected, as in json.loads strict mode. -/
def parseStrBody : Str → Option (Str × Str)
  | [] => none
  | '"' :: rest => some ([], rest)
  | '\\' :: 'u' :: d1 :: d2 :: d3 :: d4 :: rest =>
    match hex4 d1 d2 d3 d4 with
    | none => none
    | some n =>
      if 55296 ≤ n ∧ n < 56320 then
        match rest with
        | '\\' :: 'u' :: e1 :: e2 :: e3 :: e4 :: rest2 =>
          match hex4 e1 e2 e3 e4 with
          | none => none
          | some m =>
            if 56320 ≤ m ∧ m < 57344 then
              match parseStrBody rest2 with
              | some (s, r) => some (Char.ofNat (65536 + (n - 55296) * 1024 + (m - 56320)) :: s, r)
              | none => none
            else none
        | _ => none
      else if 56320 ≤ n ∧ n < 57344 then none
      else
        match parseStrBody rest with
        | some (s, r) => some (Char.ofNat n :: s, r)
        | none => none
  | '\\' :: e :: rest =>
    match unescChar e with
    | none => none
    | some u =>
      match parseStrBody rest with
      | some (s, r) => some (u :: s, r)
      | none => none
  | c :: rest =>
    if c.toNat < 32 then none
    else
      match parseStrBody rest with
      | some (s, r) => some (c :: s, r)
      | none => none

/-- Whitespace characters skipped between JSON tokens. -/
def isWsChar (c : Char) : Bool := c = ' ' || c = '\t' || c = '\n' || c = '\r'

/-- Skip leading whitespace. -/
def skipWs : Str → Str
  | [] => []
  | c :: cs => if isWsChar c then skipWs cs else c :: cs

/-- Split a maximal leading run of decimal digits from the input. -/
def takeDigits : Str → (List Char × Str)
  | [] => ([], [])
  | c :: cs =>
    if c.isDigit then
      let p := takeDigits cs
      (c :: p.1, p.2)
    else ([], c :: cs)

/-- Numeric value of a digit run. -/
def digitsVal (ds : List Char) : Nat :=
  ds.foldl (fun a c => a * 10 + (c.toNat - 48)) 0

/-- Parse an unsigned decimal number (integer part, optional fraction). -/
def parseNumCore (cs : Str) : Option (ℚ × Str) :=
  match takeDigits cs with
  | ([], _) => none
  | (ds, rest) =>
    match rest with
    | '.' :: rest2 =>
      match takeDigits rest2 with
      | ([], _) => none
      | (fs, rest3) =>
        some ((digitsVal ds : ℚ) + (digitsVal fs : ℚ) / ((10 : ℚ) ^ fs.length), rest3)
    | _ => some ((digitsVal ds : ℚ), rest)

/-- Parse a JSON value of the shapes this application stores:
a string literal or a (possibly negative) decimal number. -/
def parseJVal (cs : Str) : Option (JVal × Str) :=
  match cs with
  | '"' :: rest => (parseStrBody rest).map (fun p => (JVal.jstr p.1, p.2))
  | '-' :: rest => (parseNumCore rest).map (fun p => (JVal.jnum (-p.1), p.2))
  | _ => (parseNumCore cs).map (fun p => (JVal.jnum p.1, p.2))

/-- Parse the members of a JSON object, starting at the opening quote of
the next key and ending after the closing brace. The fuel bounds the
number of members; json_loads supplies the input length. -/
def parseMembers : Nat → Str → Option (JObj × Str)
  | 0, _ => none
  | fuel + 1, '"' :: rest =>
    match parseStrBody rest with
    | none => none
    | some (key, r1) =>
      match skipWs r1 with
      | ':' :: r3 =>
        match parseJVal (skipWs r3) with
        | none => none
        | some (v, r4) =>
          match skipWs r4 with
          | ',' :: r6 =>
            match parseMembers fuel (skipWs r6) with
            | some (o, r7) => some ((key, v) :: o, r7)
            | none => none
          | '}' :: r6 => some ([(key, v)], r6)
          | _ => none
      | _ => none
  | _ + 1, _ => none

/-- Decode a JSON object payload, mirroring json.loads on the payload
shapes this application stores: a single flat object whose values are
strings or numbers, with optional surrounding whitespace, and nothing
after the closing brace. -/
def json_loads (s : Str) : Option JObj :=
  match skipWs s with
  | '{' :: rest =>
    match skipWs rest with
    | '}' :: r2 => if skipWs r2 = [] then some [] else none
    | r2 =>
      match parseMembers s.length r2 with
      | some (o, r3) => if skipWs r3 = [] then some o else none
      | none => none
  | _ => none

/-- Tenant-keyed blob store contents: team id to stored payload. -/
def BlobStore := Str → Option Str

/-- Modelled from the spec: the process-wide defaults and static
connection settings are imported from the environment module (app/env.py,
not among the provided sources). The spec describes the model, image
model and temperature defaults as process-wide values substituted for
unset optional fields, and six static connection settings (API type,
base, version, deployment id, org id, function-call module name) that
are never tenant-specific. They are opaque values here. -/
structure EnvConfig where
  OPENAI_MODEL : Str
  OPENAI_TEMPERATURE : ℚ
  OPENAI_IMAGE_GENERATION_MODEL : Str
  OPENAI_API_TYPE : Option Str
  OPENAI_API_BASE : Option Str
  OPENAI_API_VERSION : Option Str
  OPENAI_DEPLOYMENT_ID : Option Str
  OPENAI_ORG_ID : Option Str
  OPENAI_FUNCTION_CALL_MODULE_NAME : Option Str
deriving DecidableEq, Repr

/-- Credential entries the middleware writes into the request context.
Each holds a decoded JSON value or None. -/
structure CredFields where
  OPENAI_API_KEY : Option JVal
  OPENAI_MODEL : Option JVal
  OPENAI_IMAGE_GENERATION_MODEL : Option JVal
  OPENAI_TEMPERATURE : Option JVal
deriving DecidableEq, Repr

/-- Static connection entries the middleware always writes. -/
structure Statics where
  OPENAI_API_TYPE : Option Str
  OPENAI_API_BASE : Option Str
  OPENAI_API_VERSION : Option Str
  OPENAI_DEPLOYMENT_ID : Option Str
  OPENAI_ORG_ID : Option Str
  OPENAI_FUNCTION_CALL_MODULE_NAME : Option Str
deriving DecidableEq, Repr

/-- Request context entries written by the enrichment middleware. -/
structure BoltCtx where
  cred : CredFields
  statics : Statics
deriving DecidableEq, Repr

/-- Credential entries of the except branch: every key set to None. -/
def noneCred : CredFields := ⟨none, none, none, none⟩

/-- Credential entries written in the structured branch: api_key and
model are read with dict.get and no default, the image model and the
temperature with the process-wide defaults as dict.get defaults. -/
def structuredFields (env : EnvConfig) (config : JObj) : CredFields :=
  { OPENAI_API_KEY := jget config api_key_field
    OPENAI_MODEL := jget config model_field
    OPENAI_IMAGE_GENERATION_MODEL :=
      some ((jget config image_generation_model_field).getD
        (JVal.jstr env.OPENAI_IMAGE_GENERATION_MODEL))
    OPENAI_TEMPERATURE :=
      some ((jget config temperature_field).getD (JVal.jnum env.OPENAI_TEMPERATURE)) }

/-- Credential entries written in the legacy branch: the whole payload
is the key and every other field takes its process-wide default. -/
def legacyFields (env : EnvConfig) (config_str : Str) : CredFields :=
  { OPENAI_API_KEY := some (JVal.jstr config_str)
    OPENAI_MODEL := some (JVal.jstr env.OPENAI_MODEL)
    OPENAI_IMAGE_GENERATION_MODEL := some (JVal.jstr env.OPENAI_IMAGE_GENERATION_MODEL)
    OPENAI_TEMPERATURE := some (JVal.jnum env.OPENAI_TEMPERATURE) }

/-- Python str.startswith applied with a left-brace argument. -/
def startsBrace : Str → Bool
  | '{' :: _ => true
  | _ => false

/-- Body of the try block of the middleware: download_as_text raises
when the blob is absent or unreadable (download is none), then the
payload branches on its leading character; in the structured branch
json.loads raises on undecodable payloads. -/
def middlewareTryBody (env : EnvConfig) (download : Option Str) : Except Unit CredFields :=
  match download with
  | none => throw ()
  | some config_str =>
    if startsBrace config_str then
      match json_loads config_str with
      | none => throw ()
      | some config => pure (structuredFields env config)
    else pure (legacyFields env config_str)

/-- The enrichment middleware set_gcs_openai_api_key: the try/except
around download and decode populates the credential entries, with every
entry set to None on any failure; the six static connection settings
are then written unconditionally, and the next stage of the pipeline is
invoked (the returned flag). -/
def set_gcs_openai_api_key (env : EnvConfig) (download : Option Str) : BoltCtx × Bool :=
  let cred :=
    match middlewareTryBody env download with
    | .ok cf => cf
    | .error _ => noneCred
  (⟨cred, ⟨env.OPENAI_API_TYPE, env.OPENAI_API_BASE, env.OPENAI_API_VERSION,
    env.OPENAI_DEPLOYMENT_ID, env.OPENAI_ORG_ID, env.OPENAI_FUNCTION_CALL_MODULE_NAME⟩⟩, true)

/-- Tenant configuration load as observed through the middleware:
download the blob stored under the team id and decode it. -/
def loadCred (env : EnvConfig) (store : BlobStore) (team_id : Str) : CredFields :=
  (set_gcs_openai_api_key env (store team_id)).1.cred

/-- Blob overwrite performed by a successful upload_from_string. -/
def blobPut (store : BlobStore) (team_id payload : Str) : BlobStore :=
  fun k => if k = team_id then some payload else store k

/-- Blob delete: removes the blob when present and raises NotFound (the
error case) when the blob is absent, as the GCS client does. -/
def blobDelete (store : BlobStore) (team_id : Str) : Except Unit BlobStore :=
  match store team_id with
  | some _ => pure (fun k => if k = team_id then none else store k)
  | none => throw ()

/-- Outcome of the synchronous ack of a view submission: plain ack, or
ack with response_action errors carrying one field-keyed message. -/
inductive AckResponse where
  | ackOk
  | ackErrors (field : Str) (text : Str)
deriving DecidableEq, Repr

/-- The models.retrieve call of the OpenAI client: raises when the
provider rejects the key/model pair. The probe oracle records which
pairs succeed. -/
def models_retrieve (probe : Str → Str → Bool) (api_key mdl : Str) : Except Unit Unit :=
  if probe api_key mdl then pure () else throw ()

/-- Baseline model probed to check that a key is minimally usable. -/
def baseline_model : Str := "gpt-3.5-turbo".data

/-- Message attached to the api_key field on a failed baseline probe. -/
def invalid_key_text : Str := "This API key seems to be invalid".data

/-- Message attached to the model field on a failed model probe. -/
def unavailable_model_text : Str := "This model is not yet available for this API key".data

/-- Localization of an error message: applied only when a previously
configured key exists, using that already-set key. -/
def maybeTranslate (translate : Str → Str → Str) (already_set_api_key : Option Str)
    (text : Str) : Str :=
  match already_set_api_key with
  | some old_key => translate old_key text
  | none => text

/-- Run a try block that yields a value, mapping a raised exception
through the except handler. -/
def runCatch {α : Type} (body : Except Unit α) (handler : Unit → α) : α :=
  match body with
  | .ok a => a
  | .error e => handler e

/-- Ack-phase view callback validate_api_key_registration: probe the
baseline model with the submitted key, then the submitted model with
the same key; the inner try/except maps a model-probe failure to a
field error on model, the outer one maps a baseline failure to a field
error on api_key, and the success path acks plainly. -/
def validate_api_key_registration (probe : Str → Str → Bool) (translate : Str → Str → Str)
    (already_set_api_key : Option Str) (api_key mdl : Str) : AckResponse :=
  runCatch
    (do
      models_retrieve probe api_key baseline_model
      pure (runCatch
        (do
          models_retrieve probe api_key mdl
          pure AckResponse.ackOk)
        (fun _ => AckResponse.ackErrors model_field
          (maybeTranslate translate already_set_api_key unavailable_model_text))))
    (fun _ => AckResponse.ackErrors api_key_field
      (maybeTranslate translate already_set_api_key invalid_key_text))

/-- The ack phase of the configure view as wired by app.view: the
synchronous callback runs with the blob store in scope but its body
contains no storage operation, so the phase is the pair of the
validation response and the store it leaves untouched. -/
def configure_ack_phase (probe : Str → Str → Bool) (translate : Str → Str → Str)
    (already_set_api_key : Option Str) (api_key mdl : Str) (store : BlobStore) :
    AckResponse × BlobStore :=
  (validate_api_key_registration probe translate already_set_api_key api_key mdl, store)

/-- GCS upload_from_string: either overwrites the blob for the team or
raises; the oracle records whether the write succeeds. -/
def upload_from_string (uploadOk : Bool) (store : BlobStore) (team_id payload : Str) :
    Except Unit BlobStore :=
  if uploadOk then pure (blobPut store team_id payload) else throw ()

/-- Lazy commit callback save_api_key_registration: re-verify the
submitted model with the submitted key, then upload the structured
two-field payload; any exception is caught and only logged (the Boolean
records that the except branch logged), and nothing is sent back to the
submitting user. -/
def save_api_key_registration (probe : Str → Str → Bool) (uploadOk : Bool)
    (api_key mdl team_id : Str) (store : BlobStore) : BlobStore × Bool :=
  runCatch
    (do
      models_retrieve probe api_key mdl
      let store2 ← upload_from_string uploadOk store team_id (save_payload api_key mdl)
      pure (store2, false))
    (fun _ => (store, true))

/-- Install record of one user in one workspace. -/
structure UserInstallation where
  enterprise_id : Option Str
  team_id : Str
  user_id : Str
deriving DecidableEq, Repr

/-- Bot install record of one workspace. -/
structure BotInstallation where
  enterprise_id : Option Str
  team_id : Str
deriving DecidableEq, Repr

/-- External durable state the revocation handlers act on: the install
store records and the credential blob store. -/
structure Stores where
  installations : List UserInstallation
  bots : List BotInstallation
  blobs : BlobStore

/-- FileInstallationStore delete_installation: removes the install
records of one user of one workspace; removing absent records is a
no-op (external collaborator contract). -/
def delete_installation (e : Option Str) (t u : Str) (s : Stores) : Stores :=
  { s with installations :=
      s.installations.filter (fun r => !decide (r = UserInstallation.mk e t u)) }

/-- FileInstallationStore delete_bot: removes the bot install record of
one workspace; removing an absent record is a no-op. -/
def delete_bot (e : Option Str) (t : Str) (s : Stores) : Stores :=
  { s with bots := s.bots.filter (fun r => !decide (r = BotInstallation.mk e t)) }

/-- FileInstallationStore delete_all: removes every install record of
the workspace, user records and bot record alike. -/
def delete_all (e : Option Str) (t : Str) (s : Stores) : Stores :=
  { s with
    installations :=
      s.installations.filter (fun r => !decide (r.enterprise_id = e ∧ r.team_id = t))
    bots := s.bots.filter (fun r => !decide (r = BotInstallation.mk e t)) }

/-- Payload of a tokens_revoked event: the revoked user-token owners and
the revoked bot tokens. -/
structure TokensRevokedEvent where
  oauth : List Str
  bot : List Str
deriving DecidableEq, Repr

/-- Event handler handle_tokens_revoked_events: delete the install
record of every named user; when any bot token is revoked, delete the
bot install record and try to delete the tenant blob, the try/except
logging (and swallowing) a failed blob delete. The Except layer carries
any exception that would escape the handler; the Boolean records
whether the except branch logged. -/
def handle_tokens_revoked_events (ev : TokensRevokedEvent) (enterprise_id : Option Str)
    (team_id : Str) (s : Stores) : Except Unit (Stores × Bool) := do
  let s1 :=
    if ev.oauth.length > 0 then
      ev.oauth.foldl (fun acc u => delete_installation enterprise_id team_id u acc) s
    else s
  if ev.bot.length > 0 then
    let s2 := delete_bot enterprise_id team_id s1
    tryCatch
      (do
        let b2 ← blobDelete s2.blobs team_id
        pure ({ s2 with blobs := b2 }, false))
      (fun _ => pure (s2, true))
  else
    pure (s1, false)

/-- Event handler handle_app_uninstalled_events: delete every install
record of the workspace, then try to delete the tenant blob, the
try/except logging (and swallowing) a failed blob delete. -/
def handle_app_uninstalled_events (enterprise_id : Option Str) (team_id : Str) (s : Stores) :
    Except Unit (Stores × Bool) := do
  let s1 := delete_all enterprise_id team_id s
  tryCatch
    (do
      let b2 ← blobDelete s1.blobs team_id
      pure ({ s1 with blobs := b2 }, false))
    (fun _ => pure (s1, true))

/-- Data model of the spec for a fully resolved tenant record. -/
structure TenantConfigRecord where
  api_key : Str
  model : Str
  image_generation_model : Str
  temperature : ℚ
deriving DecidableEq, Repr

/-- Context projection of a fully resolved tenant record. -/
def recordCred (r : TenantConfigRecord) : CredFields :=
  ⟨some (JVal.jstr r.api_key), some (JVal.jstr r.model),
   some (JVal.jstr r.image_generation_model), some (JVal.jnum r.temperature)⟩

/-- Success test of an exception-carrying handler result. -/
def exceptOk {ε α : Type} : Except ε α → Bool
  | .ok _ => true
  | .error _ => false

/-- Concrete environment used by concrete instances: arbitrary
representative default values. -/
def env0 : EnvConfig :=
  ⟨"gpt-3.5-turbo".data, 1, "dall-e-3".data, none, none, none, none, none, none⟩

/-- Concrete team id used by concrete instances. -/
def team_T : Str := "T".data

/-- Blob store with no stored tenant configuration. -/
def empty_store : BlobStore := fun _ => none

/-- A payload that begins with a left brace but is not decodable JSON. -/
def nonjson_brace_payload : Str := "\x7bx".data

/-- A record whose image model differs from the process default of env0. -/
def record0 : TenantConfigRecord := ⟨"k".data, "m".data, "other-model".data, 1⟩

/-- A structured payload that leaves the model field unset. -/
def payload_no_model : Str := "\x7b\"api_key\": \"k\"\x7d".data
/-- Parsing a hexadecimal digit undoes emitting one. -/
theorem parseHexDig_hexDig (n : Nat) (h : n < 16) : parseHexDig (hexDig n) = some n := by
  interval_cases n <;> decide

/-- Parsing four emitted hexadecimal digits recovers the encoded value. -/
theorem hex4_hexDigs (n : Nat) (h : n < 65536) :
    hex4 (hexDig (n / 4096 % 16)) (hexDig (n / 256 % 16)) (hexDig (n / 16 % 16))
      (hexDig (n % 16)) = some n := by
  have e : (((n / 4096 % 16) * 16 + n / 256 % 16) * 16 + n / 16 % 16) * 16 + n % 16 = n := by
    omega
  rw [hex4, parseHexDig_hexDig _ (Nat.mod_lt _ (by omega)),
      parseHexDig_hexDig _ (Nat.mod_lt _ (by omega)),
      parseHexDig_hexDig _ (Nat.mod_lt _ (by omega)),
      parseHexDig_hexDig _ (Nat.mod_lt _ (by omega))]
  simp [e]

/-- Code points of characters are unicode scalar values: below the
surrogate range or between it and the plane limit. -/
theorem char_toNat_valid (c : Char) : c.toNat < 55296 ∨ (57343 < c.toNat ∧ c.toNat < 1114112) := by
  rcases c.valid with h | ⟨h1, h2⟩
  · exact Or.inl (UInt32.toNat_lt_of_lt (by decide) h)
  · exact Or.inr ⟨UInt32.lt_toNat_of_lt (by decide) h1, UInt32.toNat_lt_of_lt (by decide) h2⟩

/-- Parsing an emitted non-surrogate unicode escape yields its character. -/
theorem parseStrBody_uEsc (n : Nat) (t sr r : Str) (hn : n < 65536)
    (hs1 : ¬ (55296 ≤ n ∧ n < 56320)) (hs2 : ¬ (56320 ≤ n ∧ n < 57344))
    (h : parseStrBody t = some (sr, r)) :
    parseStrBody (uEsc n ++ t) = some (Char.ofNat n :: sr, r) := by
  simp [uEsc, parseStrBody, hex4_hexDigs n hn, hs1, hs2, h]

/-- Parsing an emitted surrogate pair recombines the code point. -/
theorem parseStrBody_surrogates (n m : Nat) (t sr r : Str)
    (hn : 55296 ≤ n ∧ n < 56320) (hm : 56320 ≤ m ∧ m < 57344)
    (h : parseStrBody t = some (sr, r)) :
    parseStrBody (uEsc n ++ (uEsc m ++ t))
      = some (Char.ofNat (65536 + (n - 55296) * 1024 + (m - 56320)) :: sr, r) := by
  simp [uEsc, parseStrBody, hex4_hexDigs n (by omega), hex4_hexDigs m (by omega), hn, hm, h]

/-- Parsing the escape of one character prepends that character. -/
theorem parseStrBody_escChar (c : Char) (t sr r : Str) (h : parseStrBody t = some (sr, r)) :
    parseStrBody (escChar c ++ t) = some (c :: sr, r) := by
  by_cases h1 : c = '"'
  · subst h1; simp [escChar, parseStrBody, unescChar, h]
  by_cases h2 : c = '\\'
  · subst h2; simp [escChar, parseStrBody, unescChar, h]
  by_cases h3 : c = '\x08'
  · subst h3; simp [escChar, parseStrBody, unescChar, h]
  by_cases h4 : c = '\x0c'
  · subst h4; simp [escChar, parseStrBody, unescChar, h]
  by_cases h5 : c = '\n'
  · subst h5; simp [escChar, parseStrBody, unescChar, h]
  by_cases h6 : c = '\r'
  · subst h6; simp [escChar, parseStrBody, unescChar, h]
  by_cases h7 : c = '\t'
  · subst h7; simp [escChar, parseStrBody, unescChar, h]
  by_cases h8 : c.toNat < 32
  · rw [escChar, if_neg h1, if_neg h2, if_neg h3, if_neg h4, if_neg h5, if_neg h6, if_neg h7,
      if_pos h8, parseStrBody_uEsc c.toNat t sr r (by omega) (by omega) (by omega) h,
      Char.ofNat_toNat]
  by_cases h9 : c.toNat < 127
  · rw [escChar, if_neg h1, if_neg h2, if_neg h3, if_neg h4, if_neg h5, if_neg h6, if_neg h7,
      if_neg h8, if_pos h9]
    simp [parseStrBody, h1, h2, h8, h]
  by_cases h10 : c.toNat < 65536
  · have hv := char_toNat_valid c
    rw [escChar, if_neg h1, if_neg h2, if_neg h3, if_neg h4, if_neg h5, if_neg h6, if_neg h7,
      if_neg h8, if_neg h9, if_pos h10,
      parseStrBody_uEsc c.toNat t sr r (by omega) (by omega) (by omega) h,
      Char.ofNat_toNat]
  · have hv := char_toNat_valid c
    rw [escChar, if_neg h1, if_neg h2, if_neg h3, if_neg h4, if_neg h5, if_neg h6, if_neg h7,
      if_neg h8, if_neg h9, if_neg h10, List.append_assoc]
    have hh := parseStrBody_surrogates (55296 + (c.toNat - 65536) / 1024)
        (56320 + (c.toNat - 65536) % 1024) t sr r (by omega) (by omega) h
    have he : 65536 + (55296 + (c.toNat - 65536) / 1024 - 55296) * 1024
        + (56320 + (c.toNat - 65536) % 1024 - 56320) = c.toNat := by omega
    rw [hh, he, Char.ofNat_toNat]

/-- Round trip for JSON string bodies: parsing an escaped string up to
its closing quote recovers the original string and the rest of the
input. -/
theorem parseStrBody_escStr (s t : Str) : parseStrBody (escStr s ++ '"' :: t) = some (s, t) := by
  induction s with
  | nil => simp [escStr, parseStrBody]
  | cons c s ih =>
    rw [escStr, List.append_assoc, parseStrBody_escChar c _ s t ih]

/-- Leading whitespace skipping is the identity on empty input. -/
theorem skipWs_nil : skipWs [] = [] := rfl

/-- Skipping whitespace passes over a leading space. -/
theorem skipWs_sp (cs : Str) : skipWs (' ' :: cs) = skipWs cs := by
  simp [skipWs, isWsChar]

/-- Skipping whitespace stops at a non-whitespace head. -/
theorem skipWs_not_ws (c : Char) (cs : Str) (h : isWsChar c = false) :
    skipWs (c :: cs) = c :: cs := by
  simp [skipWs, h]

/-- Skipping whitespace stops at an opening brace. -/
theorem skipWs_lbrace (cs : Str) : skipWs ('{' :: cs) = '{' :: cs :=
  skipWs_not_ws _ _ (by decide)

/-- Skipping whitespace stops at a quote. -/
theorem skipWs_quote (cs : Str) : skipWs ('"' :: cs) = '"' :: cs :=
  skipWs_not_ws _ _ (by decide)

/-- Parsing the last member of an object consumes the closing brace. -/
theorem parseMembers_last (fuel : Nat) (kk vv t : Str) :
    parseMembers (fuel + 1)
        ('"' :: (escStr kk ++ '"' :: ':' :: ' ' :: '"' :: (escStr vv ++ '"' :: '}' :: t)))
      = some ([(kk, JVal.jstr vv)], t) := by
  simp [parseMembers, parseStrBody_escStr, skipWs, isWsChar, parseJVal]

/-- Parsing a non-final member consumes its trailing comma and space and
continues with the remaining members. -/
theorem parseMembers_step (fuel : Nat) (kk vv t : Str) :
    parseMembers (fuel + 1)
        ('"' :: (escStr kk ++ '"' :: ':' :: ' ' :: '"' :: (escStr vv ++ '"' :: ',' :: ' ' :: t)))
      = match parseMembers fuel (skipWs t) with
        | some (o, r) => some ((kk, JVal.jstr vv) :: o, r)
        | none => none := by
  simp [parseMembers, parseStrBody_escStr, skipWs, isWsChar, parseJVal]

/-- Structure of the written payload as an explicit character list. -/
theorem save_payload_shape (k m : Str) :
    save_payload k m
      = '{' :: '"' :: (escStr api_key_field ++ '"' :: ':' :: ' ' :: '"' ::
          (escStr k ++ '"' :: ',' :: ' ' :: ('"' :: (escStr model_field
            ++ '"' :: ':' :: ' ' :: '"' :: (escStr m ++ '"' :: '}' :: []))))) := by
  simp [save_payload, strLit]

/-- Round trip of the stored payload: decoding what the commit phase
writes yields exactly the two-field object with the submitted key and
model. -/
theorem json_loads_save_payload (k m : Str) :
    json_loads (save_payload k m)
      = some [(api_key_field, JVal.jstr k), (model_field, JVal.jstr m)] := by
  have h2 : 2 ≤ (save_payload k m).length := by
    rw [save_payload_shape]
    simp
  obtain ⟨f, hf⟩ := Nat.exists_eq_add_of_le h2
  have hf2 : (save_payload k m).length = (f + 1) + 1 := by omega
  rw [json_loads, hf2, save_payload_shape]
  simp [skipWs_lbrace, skipWs_quote, parseMembers_step, parseMembers_last, skipWs_nil, skipWs_sp]


/-- Loading a team with no stored blob yields the unconfigured context. -/
theorem loadCred_none (env : EnvConfig) (store : BlobStore) (team_id : Str)
    (h : store team_id = none) : loadCred env store team_id = noneCred := by
  simp [loadCred, set_gcs_openai_api_key, middlewareTryBody, h]

/-- The loop over revoked user tokens deletes exactly the named users of
the event scope from the install store. -/
theorem foldl_delete_installation (us : List Str) (e : Option Str) (t : Str) (s : Stores) :
    us.foldl (fun acc u => delete_installation e t u acc) s
      = { s with
          installations :=
            s.installations.filter
              (fun r => !decide (r.enterprise_id = e ∧ r.team_id = t ∧ r.user_id ∈ us)) } := by
  induction us generalizing s with
  | nil => simp
  | cons u us ih =>
    rw [List.foldl_cons, ih]
    simp only [delete_installation, List.filter_filter]
    congr 1
    apply List.filter_congr
    intro r _
    rcases r with ⟨re, rt, ru⟩
    by_cases h1 : re = e <;> by_cases h2 : rt = t <;> by_cases h3 : ru = u <;>
      simp [UserInstallation.mk.injEq, h1, h2, h3]

/-- The guarded user-token phase of the tokens_revoked handler equals
the same filter, the guard being vacuous for an empty token list. -/
theorem tokens_revoked_user_phase (oauth : List Str) (e : Option Str) (t : Str) (s : Stores) :
    (if oauth.length > 0 then
        oauth.foldl (fun acc u => delete_installation e t u acc) s
      else s)
      = { s with
          installations :=
            s.installations.filter
              (fun r => !decide (r.enterprise_id = e ∧ r.team_id = t ∧ r.user_id ∈ oauth)) } := by
  cases oauth with
  | nil => simp
  | cons u us =>
    rw [if_pos (by simp)]
    exact foldl_delete_installation (u :: us) e t s

/-- A failing blob delete means the blob was already absent. -/
theorem blobDelete_error (store : BlobStore) (t : Str) (x : Unit)
    (h : blobDelete store t = Except.error x) : store t = none := by
  cases hs : store t with
  | none => rfl
  | some v =>
    rw [blobDelete, hs] at h
    simp [pure, Except.pure] at h

/-- A successful blob delete leaves no blob under the team id. -/
theorem blobDelete_ok (store : BlobStore) (t : Str) (b2 : BlobStore)
    (h : blobDelete store t = Except.ok b2) : b2 t = none := by
  cases hs : store t with
  | none =>
    rw [blobDelete, hs] at h
    simp [throw, throwThe, MonadExceptOf.throw] at h
  | some v =>
    rw [blobDelete, hs] at h
    simp [pure, Except.pure] at h
    rw [← h]
    simp

/-- The tokens_revoked handler never lets an exception escape: its
try/except converts the only raising operation, the blob delete, into a
logged failure. -/
theorem handle_tokens_revoked_events_ok (ev : TokensRevokedEvent) (e : Option Str) (t : Str)
    (s : Stores) : ∃ p, handle_tokens_revoked_events ev e t s = Except.ok p := by
  simp only [handle_tokens_revoked_events, tokens_revoked_user_phase]
  by_cases hb : ev.bot.length > 0
  · rw [if_pos hb]
    set s2 := delete_bot e t
      { s with
        installations :=
          s.installations.filter
            (fun r => !decide (r.enterprise_id = e ∧ r.team_id = t ∧ r.user_id ∈ ev.oauth)) } with hs2
    rcases hdel : blobDelete s2.blobs t with x | b2 <;>
      simp [tryCatch, tryCatchThe, MonadExceptOf.tryCatch, Except.tryCatch, bind, Except.bind,
        hdel, pure, Except.pure]
  · rw [if_neg hb]
    exact ⟨_, rfl⟩

/-- The app_uninstalled handler never lets an exception escape. -/
theorem handle_app_uninstalled_events_ok (e : Option Str) (t : Str) (s : Stores) :
    ∃ p, handle_app_uninstalled_events e t s = Except.ok p := by
  simp only [handle_app_uninstalled_events]
  rcases hdel : blobDelete (delete_all e t s).blobs t with x | b2 <;>
    simp [tryCatch, tryCatchThe, MonadExceptOf.tryCatch, Except.tryCatch, bind, Except.bind,
      hdel, pure, Except.pure]

/-- Claim C1: the synchronous ack phase of the credential validation
flow is decided solely by the two credential-provider probes: a failed
baseline probe yields a field error on api_key, a passing baseline with
a failed model probe yields a field error on model, two passing probes
yield a plain acknowledgment; and in every outcome the blob store is
left exactly as it was. -/
theorem C1_ack_phase (probe : Str → Str → Bool) (translate : Str → Str → Str)
    (already_set_api_key : Option Str) (api_key mdl : Str) (store : BlobStore) :
    configure_ack_phase probe translate already_set_api_key api_key mdl store
      = ((if probe api_key baseline_model then
            if probe api_key mdl then AckResponse.ackOk
            else AckResponse.ackErrors model_field
              (maybeTranslate translate already_set_api_key unavailable_model_text)
          else AckResponse.ackErrors api_key_field
            (maybeTranslate translate already_set_api_key invalid_key_text)), store) := by
  by_cases hb : probe api_key baseline_model <;>
    by_cases hm : probe api_key mdl <;>
    simp [configure_ack_phase, validate_api_key_registration, models_retrieve, runCatch,
      pure, Except.pure, bind, Except.bind, hb, hm]

/-- Claim C2: the asynchronous commit phase writes the structured
two-field record under the team id exactly when the re-verification
probe of the submitted model with the submitted key succeeds and the
store write itself succeeds; on any failure the store is unchanged, the
failure is only logged (the Boolean), and the handler returns no
user-visible response. -/
theorem C2_commit_phase (probe : Str → Str → Bool) (uploadOk : Bool)
    (api_key mdl team_id : Str) (store : BlobStore) :
    save_api_key_registration probe uploadOk api_key mdl team_id store
      = if probe api_key mdl ∧ uploadOk = true then
          (blobPut store team_id (save_payload api_key mdl), false)
        else (store, true) := by
  by_cases hp : probe api_key mdl <;> cases uploadOk <;>
    simp [save_api_key_registration, models_retrieve, upload_from_string, runCatch,
      pure, Except.pure, bind, Except.bind, hp]

/-- Claim C3, counterexample: the payload consisting of a left brace
and the letter x is not decodable JSON, yet the middleware does not
fall back to legacy decoding for it: the loaded api key entry is None,
not the payload string. -/
theorem C3_counterexample :
    startsBrace nonjson_brace_payload = true ∧
    json_loads nonjson_brace_payload = none ∧
    (loadCred env0 (fun k => if k = team_T then some nonjson_brace_payload else none)
        team_T).OPENAI_API_KEY = none ∧
    loadCred env0 (fun k => if k = team_T then some nonjson_brace_payload else none) team_T
      ≠ legacyFields env0 nonjson_brace_payload := by
  decide

/-- Claim C3, amended: the decoder branches on the leading character of
the stored payload, not on JSON validity. A stored payload that does
not begin with a left brace is decoded legacy: the api key entry is the
whole payload and every other field takes its process-wide default. A
stored payload that begins with a left brace but fails JSON decoding
yields the unconfigured context with every field None rather than a
legacy decode. -/
theorem C3_decode_by_brace (env : EnvConfig) (store : BlobStore) (team_id : Str) (s : Str)
    (hstore : store team_id = some s) :
    (startsBrace s = false → loadCred env store team_id = legacyFields env s) ∧
    (startsBrace s = true → json_loads s = none → loadCred env store team_id = noneCred) := by
  constructor
  · intro hs
    simp [loadCred, set_gcs_openai_api_key, middlewareTryBody, hstore, hs, pure, Except.pure]
  · intro hs hj
    simp [loadCred, set_gcs_openai_api_key, middlewareTryBody, hstore, hs, hj]

/-- Witness for C3_decode_by_brace at a concrete legacy payload. -/
theorem C3_decode_by_brace_witness :
    (fun k => if k = team_T then some ("sk-legacy".data) else none) team_T
        = some ("sk-legacy".data) ∧
    loadCred env0 (fun k => if k = team_T then some ("sk-legacy".data) else none) team_T
      = legacyFields env0 ("sk-legacy".data) :=
  ⟨by decide,
   (C3_decode_by_brace env0 (fun k => if k = team_T then some ("sk-legacy".data) else none)
     team_T ("sk-legacy".data) (by decide)).1 (by decide)⟩

/-- Claim C4, counterexample: committing a valid record whose image
model differs from the process default and loading it back does not
return the record: the stored payload only carries the key and the
model, so the image model and the temperature come back as defaults. -/
theorem C4_counterexample :
    record0.api_key ≠ [] ∧
    loadCred env0
        (save_api_key_registration (fun _ _ => true) true record0.api_key record0.model
          team_T empty_store).1 team_T
      ≠ recordCred record0 := by
  decide

/-- Claim C4, amended: the save and load round trip holds exactly for
records whose image model and temperature equal the process-wide
defaults, because the structured payload written by the commit phase
carries only the api key and the model. -/
theorem C4_roundtrip (env : EnvConfig) (store : BlobStore) (team_id : Str)
    (r : TenantConfigRecord) (_hkey : r.api_key ≠ [])
    (himg : r.image_generation_model = env.OPENAI_IMAGE_GENERATION_MODEL)
    (htemp : r.temperature = env.OPENAI_TEMPERATURE) :
    loadCred env (blobPut store team_id (save_payload r.api_key r.model)) team_id
      = recordCred r := by
  have hsb : startsBrace (save_payload r.api_key r.model) = true := by
    rw [save_payload_shape]
    rfl
  simp [loadCred, set_gcs_openai_api_key, middlewareTryBody, blobPut, hsb,
    json_loads_save_payload, structuredFields, recordCred, himg, htemp, jget,
    api_key_field, model_field, image_generation_model_field, temperature_field,
    pure, Except.pure]

/-- Witness for C4_roundtrip at a concrete record matching the process
defaults of env0. -/
theorem C4_roundtrip_witness :
    (("sk-1".data : Str) ≠ []) ∧
    loadCred env0 (blobPut empty_store team_T (save_payload "sk-1".data "m-1".data)) team_T
      = recordCred ⟨"sk-1".data, "m-1".data, env0.OPENAI_IMAGE_GENERATION_MODEL,
          env0.OPENAI_TEMPERATURE⟩ :=
  ⟨by decide,
   C4_roundtrip env0 empty_store team_T
     ⟨"sk-1".data, "m-1".data, env0.OPENAI_IMAGE_GENERATION_MODEL, env0.OPENAI_TEMPERATURE⟩
     (by decide) rfl rfl⟩

/-- Claim C5, counterexample: for a successfully decoded structured
payload that leaves the model unset, the middleware writes None for the
model entry instead of substituting the process-wide default model. -/
theorem C5_counterexample :
    json_loads payload_no_model = some [(api_key_field, JVal.jstr ['k'])] ∧
    jget [(api_key_field, JVal.jstr ['k'])] model_field = none ∧
    (set_gcs_openai_api_key env0 (some payload_no_model)).1.cred.OPENAI_MODEL = none ∧
    (set_gcs_openai_api_key env0 (some payload_no_model)).1.cred.OPENAI_MODEL
      ≠ some (JVal.jstr env0.OPENAI_MODEL) := by
  decide

/-- Claim C5, amended: for every successfully loaded structured record
the middleware copies the api key and the model exactly as stored, with
no default substituted for an unset model, and substitutes the
process-wide default for the image model and the temperature exactly
when those are unset. -/
theorem C5_enrichment (env : EnvConfig) (s : Str) (o : JObj)
    (hs : startsBrace s = true) (ho : json_loads s = some o) :
    (set_gcs_openai_api_key env (some s)).1.cred = structuredFields env o ∧
    (set_gcs_openai_api_key env (some s)).1.cred.OPENAI_API_KEY = jget o api_key_field ∧
    (set_gcs_openai_api_key env (some s)).1.cred.OPENAI_MODEL = jget o model_field ∧
    (jget o image_generation_model_field = none →
      (set_gcs_openai_api_key env (some s)).1.cred.OPENAI_IMAGE_GENERATION_MODEL
        = some (JVal.jstr env.OPENAI_IMAGE_GENERATION_MODEL)) ∧
    (∀ v, jget o image_generation_model_field = some v →
      (set_gcs_openai_api_key env (some s)).1.cred.OPENAI_IMAGE_GENERATION_MODEL = some v) ∧
    (jget o temperature_field = none →
      (set_gcs_openai_api_key env (some s)).1.cred.OPENAI_TEMPERATURE
        = some (JVal.jnum env.OPENAI_TEMPERATURE)) ∧
    (∀ v, jget o temperature_field = some v →
      (set_gcs_openai_api_key env (some s)).1.cred.OPENAI_TEMPERATURE = some v) := by
  have hc : (set_gcs_openai_api_key env (some s)).1.cred = structuredFields env o := by
    simp [set_gcs_openai_api_key, middlewareTryBody, hs, ho, pure, Except.pure]
  refine ⟨hc, ?_, ?_, ?_, ?_, ?_, ?_⟩ <;> rw [hc] <;> simp [structuredFields]
  · intro h
    simp [h]
  · intro v h
    simp [h]
  · intro h
    simp [h]
  · intro v h
    simp [h]

/-- Witness for C5_enrichment at a concrete structured payload. -/
theorem C5_enrichment_witness :
    startsBrace payload_no_model = true ∧
    json_loads payload_no_model = some [(api_key_field, JVal.jstr ['k'])] ∧
    (set_gcs_openai_api_key env0 (some payload_no_model)).1.cred
      = structuredFields env0 [(api_key_field, JVal.jstr ['k'])] :=
  ⟨by decide, by decide,
   (C5_enrichment env0 payload_no_model [(api_key_field, JVal.jstr ['k'])]
     (by decide) (by decide)).1⟩

/-- Claim C6: a tokens_revoked event naming only user tokens and no bot
token deletes exactly the named users of the event scope from the
install store, does not log, and leaves the bot records and the tenant
blob store completely unchanged. -/
theorem C6_user_tokens_only (user_ids : List Str) (e : Option Str) (t : Str) (s : Stores) :
    handle_tokens_revoked_events ⟨user_ids, []⟩ e t s
      = Except.ok
          ({ installations :=
               s.installations.filter
                 (fun r => !decide (r.enterprise_id = e ∧ r.team_id = t ∧ r.user_id ∈ user_ids)),
             bots := s.bots,
             blobs := s.blobs }, false) := by
  simp only [handle_tokens_revoked_events, tokens_revoked_user_phase]
  norm_num [pure, Except.pure]

/-- Claim C7: a tokens_revoked event carrying a bot-token revocation,
and an app_uninstalled event, complete without an escaping exception
and leave no tenant blob for the team, so a subsequent load of that
team yields the unconfigured context. -/
theorem C7_config_deleted (env : EnvConfig) (user_ids : List Str) (b : Str) (bs : List Str)
    (e : Option Str) (t : Str) (s s' : Stores) :
    ((handle_tokens_revoked_events ⟨user_ids, b :: bs⟩ e t s).map
        (fun p => loadCred env p.1.blobs t)) = Except.ok noneCred ∧
    ((handle_app_uninstalled_events e t s').map
        (fun p => loadCred env p.1.blobs t)) = Except.ok noneCred := by
  constructor
  · simp only [handle_tokens_revoked_events, tokens_revoked_user_phase]
    rw [if_pos (by simp)]
    set s2 := delete_bot e t
      { s with
        installations :=
          s.installations.filter
            (fun r => !decide (r.enterprise_id = e ∧ r.team_id = t ∧ r.user_id ∈ user_ids)) } with hs2
    rcases hdel : blobDelete s2.blobs t with x | b2
    · simp [tryCatch, tryCatchThe, MonadExceptOf.tryCatch, Except.tryCatch, bind, Except.bind,
        hdel, pure, Except.pure, Except.map,
        loadCred_none env _ t (blobDelete_error _ t x hdel)]
    · simp [tryCatch, tryCatchThe, MonadExceptOf.tryCatch, Except.tryCatch, bind, Except.bind,
        hdel, pure, Except.pure, Except.map,
        loadCred_none env _ t (blobDelete_ok _ t b2 hdel)]
  · simp only [handle_app_uninstalled_events]
    set s1 := delete_all e t s' with hs1
    rcases hdel : blobDelete s1.blobs t with x | b2
    · simp [tryCatch, tryCatchThe, MonadExceptOf.tryCatch, Except.tryCatch, bind, Except.bind,
        hdel, pure, Except.pure, Except.map,
        loadCred_none env _ t (blobDelete_error _ t x hdel)]
    · simp [tryCatch, tryCatchThe, MonadExceptOf.tryCatch, Except.tryCatch, bind, Except.bind,
        hdel, pure, Except.pure, Except.map,
        loadCred_none env _ t (blobDelete_ok _ t b2 hdel)]

/-- Claim C8: both revocation handlers are idempotent with respect to
errors: running either handler and then running it again on the
resulting stores, where the records and the blob are already gone, the
second invocation completes without an escaping exception. -/
theorem C8_idempotent (ev : TokensRevokedEvent) (e : Option Str) (t : Str) (s : Stores) :
    exceptOk ((handle_tokens_revoked_events ev e t s).bind
        (fun p => handle_tokens_revoked_events ev e t p.1)) = true ∧
    exceptOk ((handle_app_uninstalled_events e t s).bind
        (fun p => handle_app_uninstalled_events e t p.1)) = true := by
  constructor
  · obtain ⟨p, hp⟩ := handle_tokens_revoked_events_ok ev e t s
    obtain ⟨q, hq⟩ := handle_tokens_revoked_events_ok ev e t p.1
    simp [hp, hq, exceptOk, Except.bind]
  · obtain ⟨p, hp⟩ := handle_app_uninstalled_events_ok e t s
    obtain ⟨q, hq⟩ := handle_app_uninstalled_events_ok e t p.1
    simp [hp, hq, exceptOk, Except.bind]

/-- Claim C9: on every inbound request, whatever the download yields
(a payload, or nothing because the blob is absent or unreadable), the
enrichment middleware returns normally, writes the six static
process-wide connection settings into the context, and invokes the
next pipeline stage. -/
theorem C9_middleware_total (env : EnvConfig) (download : Option Str) :
    (set_gcs_openai_api_key env download).2 = true ∧
    (set_gcs_openai_api_key env download).1.statics
      = ⟨env.OPENAI_API_TYPE, env.OPENAI_API_BASE, env.OPENAI_API_VERSION,
         env.OPENAI_DEPLOYMENT_ID, env.OPENAI_ORG_ID, env.OPENAI_FUNCTION_CALL_MODULE_NAME⟩ := by
  constructor <;> rfl

/-- Claim C10: a tokens_revoked event with empty user-token and
bot-token lists performs no deletion at all: the install records and
the blob store are returned exactly as they were, with nothing
logged. -/
theorem C10_empty_revocation_noop (e : Option Str) (t : Str) (s : Stores) :
    handle_tokens_revoked_events ⟨[], []⟩ e t s = Except.ok (s, false) := by
  simp [handle_tokens_revoked_events, pure, Except.pure]
